import Mathlib

/-!
Shallow embedding of `tpctools` (`src/lib.rs`): the `convert_to_parquet`
pipeline, the `convert_tbl` per-file conversion, and the `move_or_copy`
relocator, together with proofs about the frozen claims.

Modelling conventions:
* Arrow schemas are lists of `Field` records (name, data type, nullability).
* File names coming from the OS (`OsString`) are modelled as raw byte lists
  plus a UTF-8 validity flag; `to_str().unwrap()` and string slicing are
  modelled by `Option`-returning functions where `none` means a Rust panic.
* The filesystem effects of one table's conversion are modelled by an
  explicit state (`TState`); external outcomes (the DataFusion writer, the
  success of each rename/copy/delete) are supplied as oracle data on the
  inputs, mirroring the `?` propagation structure of the source.
* Part files `part-{n}.parquet` are identified by their number `n`
  (the name is a bijective image of the number).
-/

namespace Tpctools

/-! ### Schemas (lib.rs lines 53-55, 187-197) -/

/-- Arrow data types, as far as the pipeline distinguishes them. -/
inductive DType where
  | utf8
  | other (tag : Nat)
deriving DecidableEq, Repr

/-- An Arrow `Field`: name, data type, nullability. -/
structure Field where
  name : String
  dtype : DType
  nullable : Bool
deriving DecidableEq, Repr

/-- The synthetic trailing column pushed in `convert_to_parquet`:
`Field::new("__placeholder", DataType::Utf8, true)` (lib.rs line 54). -/
def placeholderField : Field := ⟨"__placeholder", DType.utf8, true⟩

/-- `convert_to_parquet` builds the read schema from the table's base schema:
`SchemaBuilder::from(benchmark.get_schema(table).fields)` followed by an
unconditional `push` of the placeholder (lib.rs lines 53-55). -/
def buildReadSchema (base : List Field) : List Field :=
  base ++ [placeholderField]

/-- The projection applied in `convert_tbl` before writing:
`df.schema().fields().iter().take(schema.fields().len() - 1)`
(lib.rs lines 189-195): keep all columns but the last one of the schema the
DataFrame was read with. -/
def projectForWrite (s : List Field) : List Field :=
  s.take (s.length - 1)

/-! ### Input-file stub computation (lib.rs lines 91-92) -/

/-- An OS file name: its raw bytes plus whether they are valid UTF-8
(`OsStr::to_str` returns `Some` exactly when they are). -/
structure OsName where
  bytes : List Nat
  validUtf8 : Bool
deriving DecidableEq, Repr

/-- Rust's `str::is_char_boundary` at byte index `i` of a UTF-8 string:
true at 0 and at the length, and otherwise exactly when the byte at `i` is
not a continuation byte (`b < 0x80 || b >= 0xC0`). -/
def isCharBoundary (bytes : List Nat) (i : Nat) : Bool :=
  i = 0 || i = bytes.length ||
    (match bytes.get? i with
     | some b => decide (b < 128) || decide (192 ≤ b)
     | none => false)

/-- The stub computation of `convert_to_parquet` (lib.rs lines 91-92):
`let stub = file.file_name().to_str().unwrap().to_owned();`
`let stub = &stub[0..stub.len() - 4];`
`none` models a panic: `unwrap` of a non-UTF-8 name, the arithmetic/slice
failure when the name is shorter than 4 bytes, or slicing at a byte index
that is not a character boundary. -/
def stubOf (n : OsName) : Option (List Nat) :=
  if !n.validUtf8 then none
  else if n.bytes.length < 4 then none
  else if !isCharBoundary n.bytes (n.bytes.length - 4) then none
  else some (n.bytes.take (n.bytes.length - 4))

/-! ### The relocator `move_or_copy` (lib.rs lines 126-146) -/

/-- The two files `move_or_copy` touches: the source and the destination,
each either absent (`none`) or present with its byte content. -/
structure Loc where
  src : Option (List Nat)
  dst : Option (List Nat)
deriving DecidableEq, Repr

/-- Outcomes of the OS calls issued by `move_or_copy`, supplied as an
oracle: whether the same-device check says "same device", whether
`fs::rename` succeeds, whether/where `fs::copy` fails (`some k` = the copy
fails after writing `k` bytes to the destination), and whether the final
`fs::remove_file(source)` succeeds. -/
structure MovEnv where
  sameDevice : Bool
  renameOk : Bool
  copyFail : Option Nat
  removeOk : Bool
deriving DecidableEq, Repr

/-- I/O errors surfaced by the relocator. -/
inductive IoErr where
  | renameErr
  | copyErr
  | removeErr
deriving DecidableEq, Repr

/-- `move_or_copy` (lib.rs lines 126-146). Same device: `fs::rename`
(atomic: on failure nothing changed). Different device:
`fs::copy(&source_path, &dest_path)?; fs::remove_file(&source_path)` —
a failing copy propagates immediately via `?`, leaving whatever bytes it
already wrote at the destination; only after a fully successful copy is the
source deleted. Returns the error (if any) and the resulting file states. -/
def move_or_copy (e : MovEnv) (s : Loc) : Option IoErr × Loc :=
  if e.sameDevice then
    if e.renameOk then (none, ⟨none, s.src⟩)
    else (some IoErr.renameErr, s)
  else
    match s.src with
    | none => (some IoErr.copyErr, s)
    | some content =>
      match e.copyFail with
      | some k => (some IoErr.copyErr, ⟨s.src, some (content.take k)⟩)
      | none =>
        if e.removeOk then (none, ⟨none, some content⟩)
        else (some IoErr.removeErr, ⟨s.src, some content⟩)

/-! ### `convert_tbl` (lib.rs lines 164-233) -/

/-- Parquet compression codecs reachable from `convert_tbl`. -/
inductive Compression where
  | uncompressed
  | snappy
  | lz4
  | lzo
deriving DecidableEq, Repr

/-- The codec-name match of `convert_tbl` (lib.rs lines 202-216):
`"none"`, `"snappy"`, `"lz4"`, `"lz0"` are accepted; anything else is
`DataFusionError::NotImplemented` (modelled as `none`). -/
def parseCompression : String → Option Compression
  | "none" => some Compression.uncompressed
  | "snappy" => some Compression.snappy
  | "lz4" => some Compression.lz4
  | "lz0" => some Compression.lzo
  | _ => none

/-- The externally visible engine invocations `convert_tbl` issues, in
order: the CSV-reader invocation (`ctx.read_csv`, lib.rs line 185) and the
write of the projected DataFrame (lib.rs lines 200 and 221). -/
inductive WAction where
  | readCsv
  | writeCsv
  | writeParquet (c : Compression)
deriving DecidableEq, Repr

/-- Errors `convert_tbl` returns itself (engine failures aside). -/
inductive TblErr where
  | invalidCompression (name : String)
  | invalidFormat (name : String)
deriving DecidableEq, Repr

/-- Control-flow skeleton of `convert_tbl` (lib.rs lines 164-233): invoke
the reader, project away the last column, then match the output format; for
`"parquet"` match the compression name, erroring with `NotImplemented` on
an unknown name before any write; for an unknown format error likewise.
Returns the engine invocations issued (in order) and the error, if any. -/
def convertTbl (format compression : String) (schema : List Field) :
    List WAction × List Field × Option TblErr :=
  let acts : List WAction := [WAction.readCsv]
  let projected := projectForWrite schema
  if format = "csv" then (acts ++ [WAction.writeCsv], projected, none)
  else if format = "parquet" then
    match parseCompression compression with
    | some c => (acts ++ [WAction.writeParquet c], projected, none)
    | none => (acts, projected, some (TblErr.invalidCompression compression))
  else (acts, projected, some (TblErr.invalidFormat format))

/-! ### `convert_to_parquet` per-table pipeline (lib.rs lines 45-124) -/

/-- One entry of the table's input directory, together with the oracle
outcomes of the external calls made while processing it:
`writerParts = none` means the `convert_tbl` invocation failed;
`writerParts = some outs` means it succeeded and wrote `outs.length` part
files into the temp area, the `j`-th of which relocates successfully iff
`outs.get j = true`. `removeOk` is the outcome of the final
`fs::remove_dir_all` of the temp area. -/
structure InFile where
  name : OsName
  writerParts : Option (List Bool)
  removeOk : Bool
deriving DecidableEq, Repr

/-- Ways one table's conversion stops early. The first three model Rust
panics (`panic!` at lib.rs lines 67 and 74, and the stub computation's
panics at lines 91-92); the rest model `?`-propagated errors. -/
inductive ConvErr where
  | panicInputMissing
  | panicOutputExists
  | panicStub
  | writerErr
  | relocErr
  | removeErr
deriving DecidableEq, Repr

/-- Whether the error is a Rust panic (process abort) rather than a
returned `Err`. -/
def ConvErr.isPanic : ConvErr → Bool
  | ConvErr.panicInputMissing => true
  | ConvErr.panicOutputExists => true
  | ConvErr.panicStub => true
  | _ => false

/-- The table's output directory `{output_path}/{table}.parquet`:
either it pre-existed the run (with its original entries, never touched by
a run that panics on it), or it was freshly created and now holds the part
files `part-{n}.parquet` for `n ∈ parts` plus the temp directories
`{stub}-temp.parquet` for `stub ∈ temps`. -/
inductive DirState where
  | pre (contents : List String)
  | fresh (parts : List Nat) (temps : List (List Nat))
deriving DecidableEq, Repr

/-- Filesystem state of one table's output directory (`none` = the
directory does not exist). -/
structure TState where
  dir : Option DirState
deriving DecidableEq, Repr

/-- The inner relocation loop (lib.rs lines 110-117): for each entry of the
temp area in order, compute `dest = part-{part}.parquet`, increment the
counter, and `move_or_copy` the entry there; a failed relocation propagates
immediately via `?`. Returns the error (if any), the advanced counter, and
the part numbers now present in the output directory. -/
def flattenLoop : Nat → List Bool → List Nat → Option ConvErr × Nat × List Nat
  | part, [], parts => (none, part, parts)
  | part, ok :: rest, parts =>
    if ok then flattenLoop (part + 1) rest (parts ++ [part])
    else (some ConvErr.relocErr, part + 1, parts)

/-- The per-file loop of `convert_to_parquet` (lib.rs lines 89-120):
compute the stub (panicking on a bad name), invoke `convert_tbl` into the
temp area `{stub}-temp.parquet`, relocate every emitted part through
`flattenLoop`, then `fs::remove_dir_all` the temp area; every failure
propagates immediately, leaving the temp area in place. Returns the error
(if any), the final counter, the part numbers placed, and the temp
directories still present. -/
def fileLoop : Nat → List InFile → List Nat → List (List Nat) →
    Option ConvErr × Nat × List Nat × List (List Nat)
  | part, [], parts, temps => (none, part, parts, temps)
  | part, f :: rest, parts, temps =>
    match stubOf f.name with
    | none => (some ConvErr.panicStub, part, parts, temps)
    | some stub =>
      match f.writerParts with
      | none => (some ConvErr.writerErr, part, parts, temps ++ [stub])
      | some outs =>
        match flattenLoop part outs parts with
        | (some e, part2, parts2) => (some e, part2, parts2, temps ++ [stub])
        | (none, part2, parts2) =>
          if f.removeOk then fileLoop part2 rest parts2 temps
          else (some ConvErr.removeErr, part2, parts2, temps ++ [stub])

/-- One table's body of `convert_to_parquet` (lib.rs lines 50-120):
panic if the input path does not exist; panic if the output directory
already exists (before creating or writing anything); create the output
directory; enumerate input entries only when the input path is a directory
(`if x.is_dir()`, lib.rs line 81 — otherwise the file list stays empty);
then run the per-file loop with the part counter starting at 0. -/
def convertTable (inputExists inputIsDir : Bool) (files : List InFile)
    (outputPre : Option (List String)) : Option ConvErr × TState :=
  if !inputExists then
    (some ConvErr.panicInputMissing, ⟨outputPre.map DirState.pre⟩)
  else
    match outputPre with
    | some l => (some ConvErr.panicOutputExists, ⟨some (DirState.pre l)⟩)
    | none =>
      let fv := if inputIsDir then files else []
      match fileLoop 0 fv [] [] with
      | (err, _, parts, temps) => (err, ⟨some (DirState.fresh parts temps)⟩)

/-- One table of the outer loop: its input-path status, its entries with
their oracle outcomes, and the prior state of its output directory. -/
structure TableRun where
  inputExists : Bool
  inputIsDir : Bool
  files : List InFile
  outputPre : Option (List String)

/-- The outer table loop of `convert_to_parquet` (lib.rs line 50): tables
strictly in order, stopping at the first panic or propagated error. -/
def convertToParquet : List TableRun → Option ConvErr × List TState
  | [] => (none, [])
  | t :: rest =>
    match convertTable t.inputExists t.inputIsDir t.files t.outputPre with
    | (some e, st) => (some e, [st])
    | (none, st) =>
      match convertToParquet rest with
      | (e, sts) => (e, st :: sts)

/-- Number of parts the external writer produced for an input file. -/
def InFile.numParts (f : InFile) : Nat :=
  match f.writerParts with
  | some outs => outs.length
  | none => 0

/-- All external calls for this input file succeed: its name yields a stub,
the writer succeeds, every relocation succeeds, the temp removal succeeds. -/
def InFile.allOk (f : InFile) : Bool :=
  (stubOf f.name).isSome &&
    (match f.writerParts with
     | some outs => outs.all (fun b => b)
     | none => false) &&
    f.removeOk

/-- The dichotomy the spec asserts of the relocator's final state: either
the source is gone and a destination file exists, or the source is intact
as it was and the destination is absent. -/
def relocDichotomy (init fin : Loc) : Prop :=
  (fin.src = none ∧ fin.dst.isSome = true) ∨
  (fin.src = init.src ∧ fin.dst = none)

instance (i f : Loc) : Decidable (relocDichotomy i f) :=
  inferInstanceAs (Decidable ((f.src = none ∧ f.dst.isSome = true) ∨
    (f.src = i.src ∧ f.dst = none)))

/-- Sample input file `a.tbl` whose writer emits two parts;
every external call succeeds. -/
def sampleA : InFile := ⟨⟨[97, 46, 116, 98, 108], true⟩, some [true, true], true⟩

/-- Sample input file `b.tbl` whose writer emits one part;
every external call succeeds. -/
def sampleB : InFile := ⟨⟨[98, 46, 116, 98, 108], true⟩, some [true], true⟩

/-! ### Helper lemmas -/

theorem range'_append_one (s m n : Nat) :
    List.range' s m ++ List.range' (s + m) n = List.range' s (m + n) := by
  have h := List.range'_append s m n 1
  rw [one_mul] at h
  rw [h, Nat.add_comm n m]

theorem flattenLoop_all_true (outs : List Bool)
    (h : outs.all (fun b => b) = true) (part : Nat) (parts : List Nat) :
    flattenLoop part outs parts =
      (none, part + outs.length, parts ++ List.range' part outs.length) := by
  induction outs generalizing part parts with
  | nil => simp [flattenLoop]
  | cons b rest ih =>
    simp only [List.all_cons, Bool.and_eq_true] at h
    obtain ⟨hb, hrest⟩ := h
    have hb' : b = true := by simpa using hb
    subst hb'
    rw [flattenLoop, if_pos rfl, ih hrest]
    have h1 : part + 1 + rest.length = part + (rest.length + 1) := by omega
    have h2 : parts ++ [part] ++ List.range' (part + 1) rest.length
        = parts ++ List.range' part (rest.length + 1) := by
      rw [List.range'_succ]
      simp
    rw [List.length_cons, h1, h2]

theorem fileLoop_all_ok (files : List InFile)
    (h : files.all InFile.allOk = true) (part : Nat) (parts : List Nat)
    (temps : List (List Nat)) :
    fileLoop part files parts temps =
      (none, part + (files.map InFile.numParts).sum,
       parts ++ List.range' part ((files.map InFile.numParts).sum), temps) := by
  induction files generalizing part parts with
  | nil => simp [fileLoop]
  | cons f rest ih =>
    simp only [List.all_cons, Bool.and_eq_true] at h
    obtain ⟨hf, hrest⟩ := h
    unfold InFile.allOk at hf
    simp only [Bool.and_eq_true] at hf
    obtain ⟨⟨hstub, hwriter⟩, hremove⟩ := hf
    obtain ⟨stub, hstubEq⟩ := Option.isSome_iff_exists.mp hstub
    cases hw : f.writerParts with
    | none => rw [hw] at hwriter; simp at hwriter
    | some outs =>
      simp only [hw] at hwriter
      rw [fileLoop, hstubEq, hw]
      dsimp only
      rw [flattenLoop_all_true outs hwriter part parts]
      dsimp only
      rw [if_pos hremove, ih hrest]
      have hnum : f.numParts = outs.length := by simp [InFile.numParts, hw]
      rw [List.map_cons, List.sum_cons, hnum, List.append_assoc,
        range'_append_one]
      have h3 : part + outs.length + (List.map InFile.numParts rest).sum
          = part + (outs.length + (List.map InFile.numParts rest).sum) := by
        omega
      rw [h3]

theorem flattenLoop_none_all (outs : List Bool) (part : Nat)
    (parts : List Nat) (h : (flattenLoop part outs parts).1 = none) :
    outs.all (fun b => b) = true := by
  induction outs generalizing part parts with
  | nil => simp
  | cons b rest ih =>
    cases hb : b with
    | false => subst hb; simp [flattenLoop] at h
    | true =>
      subst hb
      rw [flattenLoop, if_pos rfl] at h
      simpa using ih _ _ h

theorem fileLoop_none_all (files : List InFile) (part : Nat)
    (parts : List Nat) (temps : List (List Nat))
    (h : (fileLoop part files parts temps).1 = none) :
    files.all InFile.allOk = true := by
  induction files generalizing part parts temps with
  | nil => simp
  | cons f rest ih =>
    rw [fileLoop] at h
    cases hs : stubOf f.name with
    | none => rw [hs] at h; simp at h
    | some stub =>
      rw [hs] at h
      cases hw : f.writerParts with
      | none => rw [hw] at h; simp at h
      | some outs =>
        rw [hw] at h
        dsimp only at h
        rcases hfl : flattenLoop part outs parts with ⟨e, part2, parts2⟩
        rw [hfl] at h
        cases e with
        | some err => simp at h
        | none =>
          cases hr : f.removeOk with
          | false => rw [hr] at h; simp at h
          | true =>
            rw [hr] at h
            simp only [if_true] at h
            have hall : outs.all (fun b => b) = true :=
              flattenLoop_none_all outs part parts (by rw [hfl])
            have hrest := ih _ _ _ h
            simp [List.all_cons, InFile.allOk, hs, hw, hr, hall, hrest]

/-! ### Claim theorems -/

/-- C1: whenever a table's conversion completes successfully, its final
output directory contains exactly `Σ P_i` part files numbered
`part-0 … part-(Σ P_i - 1)` — the per-table counter starts at 0 and
increments once per relocated part, producing the dense duplicate-free
sequence `List.range` — with no temp directory left, and any permutation
of the input files also completes successfully with the same set of part
numbers. -/
theorem convertTable_parts_dense (files files' : List InFile)
    (hsucc : (convertTable true true files none).1 = none)
    (hperm : files.Perm files') :
    (convertTable true true files none).2 =
      ⟨some (DirState.fresh
        (List.range ((files.map InFile.numParts).sum)) [])⟩ ∧
    (List.range ((files.map InFile.numParts).sum)).Nodup ∧
    (convertTable true true files' none).1 = none ∧
    (convertTable true true files' none).2 =
      ⟨some (DirState.fresh
        (List.range ((files.map InFile.numParts).sum)) [])⟩ := by
  have hok : files.all InFile.allOk = true := by
    rcases hfl : fileLoop 0 files [] [] with ⟨err, cnt, parts, temps⟩
    have heq : (convertTable true true files none).1 = err := by
      simp [convertTable, hfl]
    have herr : err = none := by rw [← heq, hsucc]
    exact fileLoop_none_all files 0 [] [] (by rw [hfl, herr])
  have hok' : files'.all InFile.allOk = true := by
    rw [List.all_eq_true] at hok ⊢
    intro x hx
    exact hok x (hperm.symm.subset hx)
  have hsum : (files'.map InFile.numParts).sum =
      (files.map InFile.numParts).sum :=
    (hperm.map InFile.numParts).symm.sum_eq
  have h1 := fileLoop_all_ok files hok 0 [] []
  have h2 := fileLoop_all_ok files' hok' 0 [] []
  refine ⟨?_, List.nodup_range _, ?_, ?_⟩
  · simp [convertTable, h1, List.range_eq_range']
  · simp [convertTable, h2]
  · simp [convertTable, h2, hsum, List.range_eq_range']

/-- Witness for C1: two all-success input files producing 2 and 1 parts,
in both enumeration orders. -/
theorem convertTable_parts_dense_witness :
    (convertTable true true [sampleA, sampleB] none).2 =
      ⟨some (DirState.fresh
        (List.range (([sampleA, sampleB].map InFile.numParts).sum)) [])⟩ ∧
    (List.range (([sampleA, sampleB].map InFile.numParts).sum)).Nodup ∧
    (convertTable true true [sampleB, sampleA] none).1 = none ∧
    (convertTable true true [sampleB, sampleA] none).2 =
      ⟨some (DirState.fresh
        (List.range (([sampleA, sampleB].map InFile.numParts).sum)) [])⟩ :=
  convertTable_parts_dense [sampleA, sampleB] [sampleB, sampleA]
    (by decide) (List.Perm.swap sampleB sampleA [])

/-- C2: as stated, the relocator does not guarantee the claimed dichotomy —
a cross-device relocation of a two-byte source whose copy fails after one
byte leaves the source intact AND a partially written destination file in
place, a third state outside both claimed alternatives. -/
theorem move_or_copy_dichotomy_counterexample :
    ¬ relocDichotomy ⟨some [7, 8], none⟩
        (move_or_copy ⟨false, true, some 1, true⟩ ⟨some [7, 8], none⟩).2 ∧
    (move_or_copy ⟨false, true, some 1, true⟩ ⟨some [7, 8], none⟩).1 =
      some IoErr.copyErr ∧
    (move_or_copy ⟨false, true, some 1, true⟩ ⟨some [7, 8], none⟩).2 =
      ⟨some [7, 8], some [7]⟩ ∧
    ([7] : List Nat) ≠ [7, 8] :=
  ⟨by decide, by decide, by decide, by decide⟩

/-- C2 (amended): after `move_or_copy` returns, either it succeeded and the
source is gone with the destination holding the source's content, or it
failed and the source is intact — but on a cross-device copy failure the
destination may additionally be left as a partially written file (the code
does not remove it); on the same-device path a failure leaves both files
exactly as they were. -/
theorem move_or_copy_failure_safety (e : MovEnv) (s : Loc) (c : List Nat)
    (hsrc : s.src = some c) :
    ((move_or_copy e s).1 = none →
      (move_or_copy e s).2 = ⟨none, some c⟩) ∧
    ((move_or_copy e s).1.isSome = true →
      (move_or_copy e s).2.src = some c) ∧
    (e.sameDevice = true → (move_or_copy e s).1.isSome = true →
      (move_or_copy e s).2 = s) := by
  unfold move_or_copy
  cases hd : e.sameDevice with
  | true =>
    cases hr : e.renameOk with
    | true => simp [hsrc]
    | false => simp [hsrc]
  | false =>
    rw [hsrc]
    cases hc : e.copyFail with
    | some k => simp
    | none =>
      cases hrm : e.removeOk with
      | true => simp
      | false => simp

/-- Witness for C2 (amended): a same-device rename of a two-byte file. -/
theorem move_or_copy_failure_safety_witness :
    ((move_or_copy ⟨true, true, none, true⟩ ⟨some [1, 2], none⟩).1 = none →
      (move_or_copy ⟨true, true, none, true⟩ ⟨some [1, 2], none⟩).2 =
        ⟨none, some [1, 2]⟩) ∧
    ((move_or_copy ⟨true, true, none, true⟩
        ⟨some [1, 2], none⟩).1.isSome = true →
      (move_or_copy ⟨true, true, none, true⟩ ⟨some [1, 2], none⟩).2.src =
        some [1, 2]) ∧
    ((⟨true, true, none, true⟩ : MovEnv).sameDevice = true →
      (move_or_copy ⟨true, true, none, true⟩
        ⟨some [1, 2], none⟩).1.isSome = true →
      (move_or_copy ⟨true, true, none, true⟩ ⟨some [1, 2], none⟩).2 =
        ⟨some [1, 2], none⟩) :=
  move_or_copy_failure_safety ⟨true, true, none, true⟩ ⟨some [1, 2], none⟩
    [1, 2] rfl

/-- C3: on the cross-device path, a failed copy returns the copy error to
the caller and leaves the source file in place — the source is never
deleted before the copy has completed successfully. -/
theorem move_or_copy_copy_failure_keeps_source (e : MovEnv) (s : Loc)
    (c : List Nat) (k : Nat) (hdev : e.sameDevice = false)
    (hsrc : s.src = some c) (hfail : e.copyFail = some k) :
    (move_or_copy e s).1 = some IoErr.copyErr ∧
    (move_or_copy e s).2.src = some c := by
  unfold move_or_copy
  rw [hdev, hsrc, hfail]
  simp

/-- Witness for C3: a cross-device copy that fails immediately. -/
theorem move_or_copy_copy_failure_keeps_source_witness :
    (move_or_copy ⟨false, true, some 0, true⟩ ⟨some [5], none⟩).1 =
      some IoErr.copyErr ∧
    (move_or_copy ⟨false, true, some 0, true⟩ ⟨some [5], none⟩).2.src =
      some [5] :=
  move_or_copy_copy_failure_keeps_source ⟨false, true, some 0, true⟩
    ⟨some [5], none⟩ [5] 0 rfl rfl rfl

/-- C4: when the table's final output directory already exists, the table's
conversion stops with a precondition panic before the directory is created,
written to, or removed from, and the pre-existing contents are left exactly
as they were — both when the input path exists (the output-exists panic)
and when it does not (the earlier input-missing panic). -/
theorem convertTable_preexisting_output_untouched (iD : Bool)
    (files : List InFile) (l : List String) :
    (convertTable true iD files (some l) =
      (some ConvErr.panicOutputExists, ⟨some (DirState.pre l)⟩) ∧
      ConvErr.panicOutputExists.isPanic = true) ∧
    (convertTable false iD files (some l) =
      (some ConvErr.panicInputMissing, ⟨some (DirState.pre l)⟩) ∧
      ConvErr.panicInputMissing.isPanic = true) :=
  ⟨⟨rfl, rfl⟩, ⟨rfl, rfl⟩⟩

/-- C5: the schema handed to the CSV reader is the table's base schema plus
one appended placeholder column, and the write-time projection selects all
columns except that trailing placeholder, so the written output's columns
equal the TableSpec schema in count and order, with the placeholder never
appearing in the output. -/
theorem schema_placeholder_roundtrip (base : List Field)
    (h : placeholderField ∉ base) :
    buildReadSchema base = base ++ [placeholderField] ∧
    projectForWrite (buildReadSchema base) = base ∧
    (projectForWrite (buildReadSchema base)).length = base.length ∧
    placeholderField ∉ projectForWrite (buildReadSchema base) := by
  have hproj : projectForWrite (buildReadSchema base) = base := by
    unfold projectForWrite buildReadSchema
    have hlen : (base ++ [placeholderField]).length - 1 = base.length := by
      simp
    rw [hlen, List.take_left]
  exact ⟨rfl, hproj, by rw [hproj], by rw [hproj]; exact h⟩

/-- Witness for C5: a one-column base schema. -/
theorem schema_placeholder_roundtrip_witness :
    buildReadSchema [⟨"n_nationkey", DType.other 0, false⟩] =
      [⟨"n_nationkey", DType.other 0, false⟩] ++ [placeholderField] ∧
    projectForWrite (buildReadSchema [⟨"n_nationkey", DType.other 0, false⟩]) =
      [⟨"n_nationkey", DType.other 0, false⟩] ∧
    (projectForWrite
      (buildReadSchema [⟨"n_nationkey", DType.other 0, false⟩])).length =
      ([⟨"n_nationkey", DType.other 0, false⟩] : List Field).length ∧
    placeholderField ∉
      projectForWrite (buildReadSchema [⟨"n_nationkey", DType.other 0, false⟩]) :=
  schema_placeholder_roundtrip [⟨"n_nationkey", DType.other 0, false⟩]
    (by decide)

/-- C6: as stated ("removed on every path, success or failure alike"), the
claim fails — a single input file whose only part fails to relocate aborts
the table's conversion with the temp directory `b-temp.parquet` still
present under the output directory. -/
theorem convertTable_temp_left_counterexample :
    (convertTable true true [⟨⟨[98, 46, 116, 98, 108], true⟩,
        some [false], true⟩] none).1 = some ConvErr.relocErr ∧
    (convertTable true true [⟨⟨[98, 46, 116, 98, 108], true⟩,
        some [false], true⟩] none).2 =
      ⟨some (DirState.fresh [] [[98]])⟩ ∧
    ([[98]] : List (List Nat)) ≠ [] :=
  ⟨rfl, rfl, by decide⟩

/-- C6 (amended): the per-file temp area is removed after flattening on the
success path — after a run in which every writer invocation, relocation and
removal succeeds, no temporary directory remains under the table's final
output directory; on a failure the run aborts with the temp area left in
place. -/
theorem convertTable_no_temps_on_success (files : List InFile)
    (hok : files.all InFile.allOk = true) :
    (convertTable true true files none).1 = none ∧
    ∃ parts, (convertTable true true files none).2 =
      ⟨some (DirState.fresh parts [])⟩ := by
  have h1 := fileLoop_all_ok files hok 0 [] []
  refine ⟨by simp [convertTable, h1],
    ⟨List.range' 0 ((files.map InFile.numParts).sum), ?_⟩⟩
  simp [convertTable, h1]

/-- Witness for C6 (amended): the two sample files, all calls succeeding. -/
theorem convertTable_no_temps_on_success_witness :
    (convertTable true true [sampleA, sampleB] none).1 = none ∧
    ∃ parts, (convertTable true true [sampleA, sampleB] none).2 =
      ⟨some (DirState.fresh parts [])⟩ :=
  convertTable_no_temps_on_success [sampleA, sampleB] (by decide)

/-- C7: as stated, the claim fails on the accepted codec names — the code's
enumeration is "none"/"snappy"/"lz4"/"lz0", so the name "none", outside the
claimed {uncompressed, snappy, lz4, lzo}, is accepted with no error; and
for a genuinely unknown name ("zstd") the reader invocation has already
been issued when the error is returned. -/
theorem convertTbl_codec_counterexample :
    ("none" ∉ ["uncompressed", "snappy", "lz4", "lzo"]) ∧
    (convertTbl "parquet" "none" []).2.2 = none ∧
    (convertTbl "parquet" "none" []).1 =
      [WAction.readCsv, WAction.writeParquet Compression.uncompressed] ∧
    (convertTbl "parquet" "zstd" []).2.2 =
      some (TblErr.invalidCompression "zstd") ∧
    WAction.readCsv ∈ (convertTbl "parquet" "zstd" []).1 :=
  ⟨by decide, rfl, rfl, rfl, by decide⟩

/-- C7 (amended): a compression name outside the accepted enumeration
"none"/"snappy"/"lz4"/"lz0" (with parquet output), or an output format
other than "csv"/"parquet", makes `convert_tbl` return a NotImplemented
configuration error with no fallback substitution and no write invocation —
the reader invocation, however, precedes the check. -/
theorem convertTbl_config_error (comp fmt : String) (schema : List Field)
    (hc : parseCompression comp = none)
    (hf1 : fmt ≠ "csv") (hf2 : fmt ≠ "parquet") :
    (convertTbl "parquet" comp schema).2.2 =
      some (TblErr.invalidCompression comp) ∧
    (convertTbl "parquet" comp schema).1 = [WAction.readCsv] ∧
    (convertTbl fmt comp schema).2.2 = some (TblErr.invalidFormat fmt) ∧
    (convertTbl fmt comp schema).1 = [WAction.readCsv] := by
  unfold convertTbl
  rw [hc]
  rw [if_neg hf1, if_neg hf2]
  simp

/-- Witness for C7 (amended): codec "zstd", format "avro". -/
theorem convertTbl_config_error_witness :
    (convertTbl "parquet" "zstd" []).2.2 =
      some (TblErr.invalidCompression "zstd") ∧
    (convertTbl "parquet" "zstd" []).1 = [WAction.readCsv] ∧
    (convertTbl "avro" "zstd" []).2.2 = some (TblErr.invalidFormat "avro") ∧
    (convertTbl "avro" "zstd" []).1 = [WAction.readCsv] :=
  convertTbl_config_error "zstd" "avro" [] rfl (by decide) (by decide)

/-- C8: as stated, the claim fails — an input path that exists but is not a
directory is not a precondition error: the entry enumeration is guarded by
`is_dir()`, the file list stays empty, and the table completes successfully
with an empty output directory. -/
theorem convertTable_input_not_dir_counterexample :
    (convertTable true false [sampleA] none).1 = none ∧
    (convertTable true false [sampleA] none).2 =
      ⟨some (DirState.fresh [] [])⟩ :=
  ⟨rfl, rfl⟩

/-- C8 (amended): a missing input path is a fatal precondition panic that
aborts the table with nothing touched; an input path that exists but is not
a directory is silently tolerated — the input file set is treated as empty
and the table completes with an empty output directory. -/
theorem convertTable_input_validation (iD : Bool) (files : List InFile)
    (pre : Option (List String)) :
    ((convertTable false iD files pre).1 = some ConvErr.panicInputMissing ∧
      ConvErr.panicInputMissing.isPanic = true ∧
      (convertTable false iD files pre).2 = ⟨pre.map DirState.pre⟩) ∧
    convertTable true false files none =
      (none, ⟨some (DirState.fresh [] [])⟩) :=
  ⟨⟨rfl, rfl, rfl⟩, rfl⟩

/-- C9: the stub computation panics — `to_str().unwrap()` on a non-UTF-8
name, the slice `stub[0..len-4]` on a name shorter than 4 bytes, or slicing
at a byte that is not a character boundary — instead of returning an error:
`convert_to_parquet` stops with a panic on the first such file. -/
theorem convertTable_stub_panics (f : InFile) (rest : List InFile)
    (h : f.name.validUtf8 = false ∨ f.name.bytes.length < 4 ∨
      isCharBoundary f.name.bytes (f.name.bytes.length - 4) = false) :
    stubOf f.name = none ∧
    (convertTable true true (f :: rest) none).1 = some ConvErr.panicStub ∧
    ConvErr.panicStub.isPanic = true := by
  have hstub : stubOf f.name = none := by
    unfold stubOf
    cases hv : f.name.validUtf8 with
    | false => simp
    | true =>
      rcases h with h | h | h
      · rw [hv] at h; exact absurd h (by simp)
      · simp [h]
      · simp [h]
  have hloop : fileLoop 0 (f :: rest) [] [] =
      (some ConvErr.panicStub, 0, [], []) := by
    rw [fileLoop, hstub]
  exact ⟨hstub, by simp [convertTable, hloop], rfl⟩

/-- Witness for C9: a two-byte file name "ab". -/
theorem convertTable_stub_panics_witness :
    stubOf ⟨[97, 98], true⟩ = none ∧
    (convertTable true true [⟨⟨[97, 98], true⟩, some [true], true⟩]
      none).1 = some ConvErr.panicStub ∧
    ConvErr.panicStub.isPanic = true :=
  convertTable_stub_panics ⟨⟨[97, 98], true⟩, some [true], true⟩ []
    (Or.inr (Or.inl (by decide)))

/-- C10: the placeholder is appended unconditionally — the read schema's
last column is always the nullable Utf8 column "__placeholder" — and
`convert_tbl` drops exactly the last column of whatever schema it is given,
so on a schema without the placeholder the real last column is silently
omitted from the output. -/
theorem placeholder_unconditional_last_drop (base s : List Field)
    (hs : s ≠ []) :
    (buildReadSchema base).getLast? = some placeholderField ∧
    placeholderField.name = "__placeholder" ∧
    placeholderField.dtype = DType.utf8 ∧
    placeholderField.nullable = true ∧
    projectForWrite s = s.dropLast ∧
    projectForWrite s ≠ s := by
  have hdrop : projectForWrite s = s.dropLast := by
    unfold projectForWrite
    rw [List.dropLast_eq_take]
  have hne : projectForWrite s ≠ s := by
    rw [hdrop]
    intro he
    have hlen := congrArg List.length he
    rw [List.length_dropLast] at hlen
    have hpos : 0 < s.length := List.length_pos.mpr hs
    omega
  exact ⟨List.getLast?_concat _, rfl, rfl, rfl, hdrop, hne⟩

/-- Witness for C10: a one-column schema without a placeholder. -/
theorem placeholder_unconditional_last_drop_witness :
    (buildReadSchema []).getLast? = some placeholderField ∧
    placeholderField.name = "__placeholder" ∧
    placeholderField.dtype = DType.utf8 ∧
    placeholderField.nullable = true ∧
    projectForWrite [⟨"x", DType.other 1, false⟩] =
      ([⟨"x", DType.other 1, false⟩] : List Field).dropLast ∧
    projectForWrite [⟨"x", DType.other 1, false⟩] ≠
      [⟨"x", DType.other 1, false⟩] :=
  placeholder_unconditional_last_drop [] [⟨"x", DType.other 1, false⟩]
    (by decide)

end Tpctools
